import Mathlib

/-!
Shallow embedding of the Ad Lib Gold adapter driver's register-bus
arbitration and interrupt-dispatch core (`src/adapter.cpp`), with the
hardware constants of `src/common.h`.

Port I/O is modelled as an explicit trace: each `READ_PORT_UCHAR` /
`WRITE_PORT_UCHAR` / `KeStallExecutionProcessor` appends an event to a
`BusState`.  The value returned by a port read is supplied by an oracle
`hw : Nat → Nat` indexed by the number of reads issued so far, so every
hardware response pattern (ready, busy, arbitrary status bytes) is a
choice of oracle.  The event list is kept newest-first.
-/

namespace AdLibGold

/-- `common.h`: port offsets from the I/O base. -/
def ALG_REG_FM0_ADDR : Nat := 0x00
def ALG_REG_FM0_DATA : Nat := 0x01
def ALG_REG_FM1_ADDR : Nat := 0x02
def ALG_REG_FM1_DATA : Nat := 0x03
def ALG_REG_MMA0_ADDR : Nat := 0x04
def ALG_REG_MMA0_DATA : Nat := 0x05

/-- `common.h`: bank-select sentinels written to base+2. -/
def ALG_BANK_CONTROL : Nat := 0xFF
def ALG_BANK_OPL3 : Nat := 0xFE

/-- `common.h`: status bits read from base+2 while the control bank is on. -/
def ALG_STATUS_BUSY_MASK : Nat := 0xC0
def ALG_STATUS_SMP_IRQ : Nat := 0x02
def ALG_STATUS_FM_IRQ : Nat := 0x01
def ALG_STATUS_IRQ_MASK : Nat := 0x0F

/-- `common.h`: MMA (YMZ263) status bits. -/
def MMA_STATUS_RRQ : Nat := 0x04

/-- `common.h`: Control Chip register indices. -/
def CTRL_REG_CONTROL_ID : Nat := 0x00
def CTRL_REG_RESERVED : Nat := 0x12
def CTRL_REG_MAX : Nat := 0x19
def CTRL_MIXER_FIRST : Nat := 0x04
def CTRL_MIXER_LAST : Nat := 0x0F
def CTRL_ID_RESTORE : Nat := 0x01
def CTRL_ID_MODEL_MASK : Nat := 0x0F
def ALG_MODEL_GOLD2000MC : Nat := 0x02

/-- NT `DEVICE_POWER_STATE` values (`wdm.h`): `PowerDeviceD0 = 1` … `PowerDeviceD3 = 4`. -/
def PowerDeviceD0 : Nat := 1
def PowerDeviceD1 : Nat := 2
def PowerDeviceD2 : Nat := 3
def PowerDeviceD3 : Nat := 4

/-- NT status codes used by the adapter. -/
def STATUS_SUCCESS : Nat := 0x00000000
def STATUS_UNSUCCESSFUL : Nat := 0xC0000001
def STATUS_DEVICE_DOES_NOT_EXIST : Nat := 0xC00000C0
def STATUS_DEVICE_POWERED_OFF : Nat := 0xC00002BE

/-- One observable hardware interaction: a port write, a port read (with the
value the hardware returned), a CPU stall (`KeStallExecutionProcessor`), or an
invocation of a registered consumer callback. -/
inductive PortEvent where
  | write (port : Nat) (value : Nat)
  | read (port : Nat) (value : Nat)
  | stall (us : Nat)
  | callWave
  | callMidi
  deriving DecidableEq, Repr

/-- The I/O bus: the read oracle, the number of reads issued so far, and the
trace of events, newest first. -/
structure BusState where
  hw : Nat → Nat
  nReads : Nat
  events : List PortEvent

/-- A fresh bus over oracle `hw`: no reads issued, empty trace. -/
def mkBus (hw : Nat → Nat) : BusState := ⟨hw, 0, []⟩

/-- `WRITE_PORT_UCHAR(base + port, v)`. -/
def writePort (port v : Nat) (bus : BusState) : BusState :=
  { bus with events := PortEvent.write port v :: bus.events }

/-- `READ_PORT_UCHAR(base + port)`: the oracle supplies the value. -/
def readPort (port : Nat) (bus : BusState) : Nat × BusState :=
  (bus.hw bus.nReads,
   { bus with nReads := bus.nReads + 1,
              events := PortEvent.read port (bus.hw bus.nReads) :: bus.events })

/-- `KeStallExecutionProcessor(us)`. -/
def stall (us : Nat) (bus : BusState) : BusState :=
  { bus with events := PortEvent.stall us :: bus.events }

/-- The `do { status = READ; } while ((status & ALG_STATUS_BUSY_MASK) && --timeout)`
loop of `CAdapterCommon::WaitForReady`, entered with the current `timeout`
value; returns the final `timeout`. -/
def waitAux : Nat → BusState → Nat × BusState
  | 0, bus => (0, bus)
  | t + 1, bus =>
    let r := readPort ALG_REG_FM1_ADDR bus
    if r.1 &&& ALG_STATUS_BUSY_MASK = 0 then (t + 1, r.2)
    else if t = 0 then (0, r.2) else waitAux t r.2

/-- `CAdapterCommon::WaitForReady`: poll SB/RB with a budget of 1000
iterations; `true` iff the busy bits cleared before the budget ran out. -/
def WaitForReady (bus : BusState) : Bool × BusState :=
  let r := waitAux 1000 bus
  (decide (r.1 > 0), r.2)

/-- Pointwise update of the shadow-cache array `m_ControlRegs`. -/
def updReg (f : Nat → Nat) (i v : Nat) : Nat → Nat :=
  fun j => if j = i then v else f j

/-- The adapter-common object state: power state, shadow cache
`m_ControlRegs[CTRL_REG_MAX]`, cached card identity, and the two weak
miniport back-references (modelled as registered / not registered). -/
structure AdapterState where
  powerState : Nat
  controlRegs : Nat → Nat
  cardModel : Nat
  cardOptions : Nat
  waveMiniport : Bool
  midiMiniport : Bool

/-- `CAdapterCommon::ControlRegWrite(Register, Value)`: full bank-switch
sequence when the power state admits hardware access, then the unconditional
shadow-cache update (guarded by `Register < CTRL_REG_MAX`). -/
def ControlRegWrite (st : AdapterState) (bus : BusState) (Register Value : Nat) :
    AdapterState × BusState :=
  let bus :=
    if st.powerState ≤ PowerDeviceD1 then
      -- 1. Enable control bank
      let bus := writePort ALG_REG_FM1_ADDR ALG_BANK_CONTROL bus
      -- 2. Poll until not busy
      let bus := (WaitForReady bus).2
      -- 3. Write register index
      let bus := writePort ALG_REG_FM1_ADDR Register bus
      -- 4. Write data value
      let bus := writePort ALG_REG_FM1_DATA Value bus
      -- 5. Register-dependent settle delay
      let bus :=
        if 0x04 ≤ Register ∧ Register ≤ 0x08 then (WaitForReady bus).2
        else if 0x09 ≤ Register ∧ Register ≤ 0x16 then stall 5 bus
        else bus
      -- 6. Restore OPL3 bank
      writePort ALG_REG_FM1_ADDR ALG_BANK_OPL3 bus
    else bus
  let st :=
    if Register < CTRL_REG_MAX then
      { st with controlRegs := updReg st.controlRegs Register Value }
    else st
  (st, bus)

/-- `CAdapterCommon::ControlRegRead(Register)`: served from the shadow cache;
out-of-range indices read as 0. -/
def ControlRegRead (st : AdapterState) (Register : Nat) : Nat :=
  if Register < CTRL_REG_MAX then st.controlRegs Register else 0

/-- Record an invocation of the wave miniport's `ServiceWaveISR`. -/
def callWave (bus : BusState) : BusState :=
  { bus with events := PortEvent.callWave :: bus.events }

/-- Record an invocation of the MIDI miniport's `ServiceMidiISR`. -/
def callMidi (bus : BusState) : BusState :=
  { bus with events := PortEvent.callMidi :: bus.events }

/-- `InterruptServiceRoutine` (`adapter.cpp`): probe the multiplexed status
register through a bank force/restore round trip, return not-mine when all
four active-low source bits are 1, otherwise service the sampling/MMA source
(one MMA status read, unconditional wave callback, RRQ-gated MIDI callback)
and acknowledge the FM timer source. -/
def InterruptServiceRoutine (st : AdapterState) (bus : BusState) : Nat × BusState :=
  let bus := writePort ALG_REG_FM1_ADDR ALG_BANK_CONTROL bus
  let r := readPort ALG_REG_FM1_ADDR bus
  let status := r.1
  let bus := writePort ALG_REG_FM1_ADDR ALG_BANK_OPL3 r.2
  if status &&& ALG_STATUS_IRQ_MASK = ALG_STATUS_IRQ_MASK then
    (STATUS_UNSUCCESSFUL, bus)
  else
    let bus :=
      if status &&& ALG_STATUS_SMP_IRQ = 0 then
        let r2 := readPort ALG_REG_MMA0_ADDR bus
        let mmaStatus := r2.1
        let bus := r2.2
        let bus := if st.waveMiniport then callWave bus else bus
        if mmaStatus &&& MMA_STATUS_RRQ ≠ 0 ∧ st.midiMiniport then callMidi bus
        else bus
      else bus
    let bus :=
      if status &&& ALG_STATUS_FM_IRQ = 0 then (readPort ALG_REG_FM0_ADDR bus).2
      else bus
    (STATUS_SUCCESS, bus)

/-- The `for (i = CTRL_MIXER_FIRST; i <= CTRL_MIXER_LAST; i++)` replay loop of
`PowerChangeState`: each index is written back from the shadow cache. -/
def replayMixer : List Nat → AdapterState × BusState → AdapterState × BusState
  | [], sb => sb
  | i :: rest, sb => replayMixer rest (ControlRegWrite sb.1 sb.2 i (sb.1.controlRegs i))

/-- The mixer range 0x04–0x0F as a list, ascending. -/
def mixerRange : List Nat :=
  List.range' CTRL_MIXER_FIRST (CTRL_MIXER_LAST - CTRL_MIXER_FIRST + 1)

/-- `CAdapterCommon::PowerChangeState(NewState)`: on entry to D0 set the state
first, then replay the mixer range from the shadow cache; on entry to D1–D3
record the state only; unknown states and same-state transitions do nothing. -/
def PowerChangeState (st : AdapterState) (bus : BusState) (NewState : Nat) :
    AdapterState × BusState :=
  if NewState ≠ st.powerState then
    if NewState = PowerDeviceD0 then
      replayMixer mixerRange ({ st with powerState := PowerDeviceD0 }, bus)
    else if NewState = PowerDeviceD1 ∨ NewState = PowerDeviceD2 ∨ NewState = PowerDeviceD3 then
      ({ st with powerState := NewState }, bus)
    else (st, bus)
  else (st, bus)

/-- The register readback loop of `RestoreFromEEPROM`: for each index, select
it on the address port and read the data port into the shadow cache. -/
def readbackLoop : List Nat → AdapterState × BusState → AdapterState × BusState
  | [], sb => sb
  | reg :: rest, (st, bus) =>
    let bus := writePort ALG_REG_FM1_ADDR reg bus
    let r := readPort ALG_REG_FM1_DATA bus
    readbackLoop rest ({ st with controlRegs := updReg st.controlRegs reg r.1 }, r.2)

/-- `CAdapterCommon::RestoreFromEEPROM`: power-gated; issue the restore
command, stall 2.5 ms, re-read all `CTRL_REG_MAX` registers into the shadow
cache, restore the OPL3 bank, and refresh the cached card identity. -/
def RestoreFromEEPROM (st : AdapterState) (bus : BusState) :
    Nat × AdapterState × BusState :=
  if st.powerState > PowerDeviceD1 then (STATUS_DEVICE_POWERED_OFF, st, bus)
  else
    let bus := writePort ALG_REG_FM1_ADDR ALG_BANK_CONTROL bus
    let bus := (WaitForReady bus).2
    let bus := writePort ALG_REG_FM1_ADDR CTRL_REG_CONTROL_ID bus
    let bus := writePort ALG_REG_FM1_DATA CTRL_ID_RESTORE bus
    let bus := stall 2500 bus
    let bus := (WaitForReady bus).2
    let sb := readbackLoop (List.range CTRL_REG_MAX) (st, bus)
    let bus := writePort ALG_REG_FM1_ADDR ALG_BANK_OPL3 sb.2
    let st := sb.1
    let st := { st with
        cardModel := st.controlRegs CTRL_REG_CONTROL_ID &&& CTRL_ID_MODEL_MASK,
        cardOptions := st.controlRegs CTRL_REG_CONTROL_ID }
    (STATUS_SUCCESS, st, bus)

/-- `CAdapterCommon::ControlRegReset`: both the registry branch of
`RestoreMixerSettingsFromRegistry` and the hardcoded-default branch reduce to
a sequence of `ControlRegWrite` calls whose (index, value) pairs depend on the
external registry; that sequence is the parameter `settingWrites`.  The reset
always ends with `ControlRegWrite(CTRL_REG_RESERVED, 0)`. -/
def ControlRegReset (settingWrites : List (Nat × Nat)) (st : AdapterState)
    (bus : BusState) : AdapterState × BusState :=
  let sb := settingWrites.foldl (fun sb p => ControlRegWrite sb.1 sb.2 p.1 p.2) (st, bus)
  ControlRegWrite sb.1 sb.2 CTRL_REG_RESERVED 0

/-- `CAdapterCommon::Init`, from the card-detection probe onward (resource
validation passed).  External collaborators appear as parameters: `syncStatus`
is the NTSTATUS of the interrupt-sync setup (`PcNewInterruptSync` and
friends), and `settingWrites` the register writes performed by the mixer
reset's registry-or-default path. -/
def Init (hw : Nat → Nat) (syncStatus : Nat) (settingWrites : List (Nat × Nat)) :
    Nat × AdapterState × BusState :=
  let st : AdapterState :=
    { powerState := PowerDeviceD0, controlRegs := fun _ => 0,
      cardModel := 0, cardOptions := 0, waveMiniport := false, midiMiniport := false }
  let bus := writePort ALG_REG_FM1_ADDR ALG_BANK_CONTROL (mkBus hw)
  let w := WaitForReady bus
  if w.1 = false then (STATUS_DEVICE_DOES_NOT_EXIST, st, w.2)
  else
    let bus := writePort ALG_REG_FM1_ADDR CTRL_REG_CONTROL_ID w.2
    let r := readPort ALG_REG_FM1_DATA bus
    let idByte := r.1
    let bus := writePort ALG_REG_FM1_ADDR ALG_BANK_OPL3 r.2
    let st := { st with
        cardModel := idByte &&& CTRL_ID_MODEL_MASK,
        cardOptions := idByte,
        controlRegs := updReg st.controlRegs CTRL_REG_CONTROL_ID idByte }
    if st.cardModel > ALG_MODEL_GOLD2000MC then
      (STATUS_DEVICE_DOES_NOT_EXIST, st, bus)
    else if syncStatus ≠ STATUS_SUCCESS then (syncStatus, st, bus)
    else
      let sb := ControlRegReset settingWrites st bus
      (STATUS_SUCCESS, sb.1, sb.2)

/-! ### Trace projections -/

/-- The port writes of a trace, newest first. -/
def writesOf : List PortEvent → List (Nat × Nat)
  | [] => []
  | PortEvent.write p v :: rest => (p, v) :: writesOf rest
  | _ :: rest => writesOf rest

/-- Chronological (oldest-first) list of port writes of a bus. -/
def chronWrites (bus : BusState) : List (Nat × Nat) :=
  (writesOf bus.events).reverse

/-- The value of the chronologically last write to `port`, if any. -/
def lastWriteTo (port : Nat) (evs : List PortEvent) : Option Nat :=
  ((writesOf evs).find? (fun q => q.1 == port)).map Prod.snd

/-- Pair each write to the shared data port (base+3) with the most recent
preceding write to the shared address port (base+2): the control-register
(index, value) accesses of a chronological write list. -/
def pairRegWrites : List (Nat × Nat) → Option Nat → List (Nat × Nat)
  | [], _ => []
  | (p, v) :: rest, sel =>
    if p = ALG_REG_FM1_ADDR then pairRegWrites rest (some v)
    else if p = ALG_REG_FM1_DATA then
      match sel with
      | some idx => (idx, v) :: pairRegWrites rest sel
      | none => pairRegWrites rest sel
    else pairRegWrites rest sel

/-- The control-register (index, value) hardware accesses of a bus trace. -/
def ctrlRegHwWrites (bus : BusState) : List (Nat × Nat) :=
  pairRegWrites (chronWrites bus) none

/-- Number of port reads issued to `port` in a trace. -/
def countReadsTo (port : Nat) : List PortEvent → Nat
  | [] => 0
  | PortEvent.read p _ :: rest => (if p = port then 1 else 0) + countReadsTo port rest
  | _ :: rest => countReadsTo port rest

/-- Number of wave-consumer callback invocations in a trace. -/
def countWaveCalls : List PortEvent → Nat
  | [] => 0
  | PortEvent.callWave :: rest => 1 + countWaveCalls rest
  | _ :: rest => countWaveCalls rest

/-- Number of MIDI-consumer callback invocations in a trace. -/
def countMidiCalls : List PortEvent → Nat
  | [] => 0
  | PortEvent.callMidi :: rest => 1 + countMidiCalls rest
  | _ :: rest => countMidiCalls rest

/-- Oracle of a card that answers the first (busy-poll) read with "ready"
(0x00) and returns `id` on every later read. -/
def probeOracle (id : Nat) : Nat → Nat := fun n => if n = 0 then 0 else id

/-- The bus state after the restore-command prefix of `RestoreFromEEPROM`
(bank enable, busy poll, command-register select, restore-command write,
2.5 ms stall, busy poll), before the readback loop. -/
def eepromPrefixBus (bus : BusState) : BusState :=
  (WaitForReady (stall 2500 (writePort ALG_REG_FM1_DATA CTRL_ID_RESTORE
    (writePort ALG_REG_FM1_ADDR CTRL_REG_CONTROL_ID
      (WaitForReady (writePort ALG_REG_FM1_ADDR ALG_BANK_CONTROL bus)).2)))).2

/-! ### Concrete states and oracles used by the witnesses -/

/-- A powered-up adapter with a zeroed shadow cache. -/
def st0 : AdapterState :=
  { powerState := PowerDeviceD0, controlRegs := fun _ => 0,
    cardModel := 0, cardOptions := 0, waveMiniport := false, midiMiniport := false }

/-- The same adapter in the deepest sleep state D3. -/
def stOff : AdapterState := { st0 with powerState := PowerDeviceD3 }

/-- A powered adapter with both consumer callbacks registered. -/
def stBoth : AdapterState := { st0 with waveMiniport := true, midiMiniport := true }

/-- Hardware whose reads always return 0x00 (ready, all IRQ sources pending). -/
def zeroOracle : Nat → Nat := fun _ => 0

/-- Hardware whose reads always return 0xC0 (SB and RB stuck busy). -/
def busyOracle : Nat → Nat := fun _ => 0xC0

/-- Hardware whose status reads return 0x0F: all four active-low IRQ source
bits inactive. -/
def idleOracle : Nat → Nat := fun _ => 0x0F

/-! ### Basic lemmas about traces and the busy-poll loop -/

theorem writesOf_write (p v : Nat) (evs : List PortEvent) :
    writesOf (PortEvent.write p v :: evs) = (p, v) :: writesOf evs := rfl

theorem writesOf_read (p v : Nat) (evs : List PortEvent) :
    writesOf (PortEvent.read p v :: evs) = writesOf evs := rfl

theorem writesOf_stall (us : Nat) (evs : List PortEvent) :
    writesOf (PortEvent.stall us :: evs) = writesOf evs := rfl

theorem waitAux_hw (t : Nat) (bus : BusState) : (waitAux t bus).2.hw = bus.hw := by
  induction t generalizing bus with
  | zero => rfl
  | succ t ih =>
    simp only [waitAux]
    split
    · rfl
    · split
      · rfl
      · exact ih _

theorem waitAux_writesOf (t : Nat) (bus : BusState) :
    writesOf (waitAux t bus).2.events = writesOf bus.events := by
  induction t generalizing bus with
  | zero => rfl
  | succ t ih =>
    simp only [waitAux]
    split
    · rfl
    · split
      · rfl
      · exact ih _

theorem waitAux_nReads_le (t : Nat) (bus : BusState) :
    (waitAux t bus).2.nReads ≤ bus.nReads + t := by
  induction t generalizing bus with
  | zero => simp [waitAux]
  | succ t ih =>
    simp only [waitAux]
    split
    · simp only [readPort]; omega
    · split
      · simp only [readPort]; omega
      · exact le_trans (ih _) (by simp only [readPort]; omega)

theorem waitAux_events_append (t : Nat) (bus : BusState) :
    ∃ pre, (waitAux t bus).2.events = pre ++ bus.events := by
  induction t generalizing bus with
  | zero => exact ⟨[], rfl⟩
  | succ t ih =>
    simp only [waitAux]
    split
    · exact ⟨[PortEvent.read ALG_REG_FM1_ADDR (bus.hw bus.nReads)], rfl⟩
    · split
      · exact ⟨[PortEvent.read ALG_REG_FM1_ADDR (bus.hw bus.nReads)], rfl⟩
      · obtain ⟨pre, hpre⟩ := ih (readPort ALG_REG_FM1_ADDR bus).2
        exact ⟨pre ++ [PortEvent.read ALG_REG_FM1_ADDR (bus.hw bus.nReads)],
          by rw [hpre]; simp [readPort]⟩

theorem WaitForReady_hw (bus : BusState) : (WaitForReady bus).2.hw = bus.hw :=
  waitAux_hw 1000 bus

theorem WaitForReady_writesOf (bus : BusState) :
    writesOf (WaitForReady bus).2.events = writesOf bus.events :=
  waitAux_writesOf 1000 bus

theorem WaitForReady_nReads_le (bus : BusState) :
    (WaitForReady bus).2.nReads ≤ bus.nReads + 1000 :=
  waitAux_nReads_le 1000 bus

theorem WaitForReady_events_append (bus : BusState) :
    ∃ pre, (WaitForReady bus).2.events = pre ++ bus.events :=
  waitAux_events_append 1000 bus

/-! ### Shadow-cache update lemmas -/

theorem updReg_same (f : Nat → Nat) (i v : Nat) : updReg f i v i = v := by
  simp [updReg]

theorem updReg_other (f : Nat → Nat) (i v j : Nat) (h : j ≠ i) :
    updReg f i v j = f j := by
  simp [updReg, h]

theorem updReg_self (f : Nat → Nat) (i : Nat) : updReg f i (f i) = f := by
  funext j
  by_cases h : j = i <;> simp [updReg, h]

theorem ControlRegWrite_fst (st : AdapterState) (bus : BusState) (i v : Nat) :
    (ControlRegWrite st bus i v).1 =
      if i < CTRL_REG_MAX then { st with controlRegs := updReg st.controlRegs i v }
      else st := rfl

theorem ControlRegWrite_powerState (st : AdapterState) (bus : BusState) (i v : Nat) :
    (ControlRegWrite st bus i v).1.powerState = st.powerState := by
  rw [ControlRegWrite_fst]; split <;> rfl

theorem ControlRegWrite_cardModel (st : AdapterState) (bus : BusState) (i v : Nat) :
    (ControlRegWrite st bus i v).1.cardModel = st.cardModel := by
  rw [ControlRegWrite_fst]; split <;> rfl

theorem ControlRegWrite_controlRegs (st : AdapterState) (bus : BusState) (i v j : Nat) :
    (ControlRegWrite st bus i v).1.controlRegs j =
      if j = i ∧ i < CTRL_REG_MAX then v else st.controlRegs j := by
  rw [ControlRegWrite_fst]
  by_cases hi : i < CTRL_REG_MAX <;> by_cases hj : j = i <;>
    simp [hi, hj, updReg_same, updReg_other]

theorem ControlRegWrite_hw (st : AdapterState) (bus : BusState) (i v : Nat) :
    (ControlRegWrite st bus i v).2.hw = bus.hw := by
  by_cases hp : st.powerState ≤ PowerDeviceD1
  · simp only [ControlRegWrite, if_pos hp]
    split_ifs <;> simp [writePort, stall, WaitForReady_hw]
  · simp [ControlRegWrite, hp]

theorem ControlRegWrite_writesOf_powered (st : AdapterState) (bus : BusState)
    (i v : Nat) (hp : st.powerState ≤ PowerDeviceD1) :
    writesOf (ControlRegWrite st bus i v).2.events =
      (ALG_REG_FM1_ADDR, ALG_BANK_OPL3) :: (ALG_REG_FM1_DATA, v) ::
      (ALG_REG_FM1_ADDR, i) :: (ALG_REG_FM1_ADDR, ALG_BANK_CONTROL) ::
      writesOf bus.events := by
  simp only [ControlRegWrite, if_pos hp]
  split_ifs <;>
    simp [writePort, stall, WaitForReady_writesOf, writesOf_write, writesOf_read,
          writesOf_stall]

theorem ControlRegWrite_snd_unpowered (st : AdapterState) (bus : BusState)
    (i v : Nat) (hp : ¬ st.powerState ≤ PowerDeviceD1) :
    (ControlRegWrite st bus i v).2 = bus := by
  simp [ControlRegWrite, hp]

theorem read_after_write (st : AdapterState) (bus : BusState) (i v : Nat)
    (hi : i < CTRL_REG_MAX) :
    ControlRegRead (ControlRegWrite st bus i v).1 i = v := by
  simp [ControlRegRead, hi, ControlRegWrite_controlRegs]

theorem ControlRegWrite_writeback (st : AdapterState) (bus : BusState) (i : Nat)
    (hi : i < CTRL_REG_MAX) :
    (ControlRegWrite st bus i (st.controlRegs i)).1 = st := by
  rw [ControlRegWrite_fst, if_pos hi, updReg_self]

theorem replayMixer_spec (L : List Nat) :
    ∀ (st : AdapterState) (bus : BusState), st.powerState ≤ PowerDeviceD1 →
      (∀ i ∈ L, i < CTRL_REG_MAX) →
      (replayMixer L (st, bus)).1 = st ∧
      chronWrites (replayMixer L (st, bus)).2 =
        chronWrites bus ++
          (L.flatMap fun i =>
            [(ALG_REG_FM1_ADDR, ALG_BANK_CONTROL), (ALG_REG_FM1_ADDR, i),
             (ALG_REG_FM1_DATA, st.controlRegs i), (ALG_REG_FM1_ADDR, ALG_BANK_OPL3)]) := by
  induction L with
  | nil => intro st bus _ _; exact ⟨rfl, by simp [replayMixer]⟩
  | cons i L ih =>
    intro st bus hp hmem
    have hi : i < CTRL_REG_MAX := hmem i (by simp)
    have heta : ControlRegWrite st bus i (st.controlRegs i)
        = ((ControlRegWrite st bus i (st.controlRegs i)).1,
           (ControlRegWrite st bus i (st.controlRegs i)).2) := rfl
    rw [replayMixer, heta, ControlRegWrite_writeback st bus i hi]
    obtain ⟨h1, h2⟩ := ih st (ControlRegWrite st bus i (st.controlRegs i)).2 hp
      (fun j hj => hmem j (List.mem_cons_of_mem _ hj))
    refine ⟨h1, ?_⟩
    rw [h2]
    have hcw : chronWrites (ControlRegWrite st bus i (st.controlRegs i)).2 =
        chronWrites bus ++
          [(ALG_REG_FM1_ADDR, ALG_BANK_CONTROL), (ALG_REG_FM1_ADDR, i),
           (ALG_REG_FM1_DATA, st.controlRegs i), (ALG_REG_FM1_ADDR, ALG_BANK_OPL3)] := by
      rw [chronWrites, ControlRegWrite_writesOf_powered st bus i (st.controlRegs i) hp]
      simp [chronWrites]
    rw [hcw]
    simp [List.flatMap_cons]

theorem pairRegWrites_addr (v : Nat) (rest : List (Nat × Nat)) (sel : Option Nat) :
    pairRegWrites ((ALG_REG_FM1_ADDR, v) :: rest) sel = pairRegWrites rest (some v) := by
  simp [pairRegWrites]

theorem pairRegWrites_data (v : Nat) (rest : List (Nat × Nat)) (idx : Nat) :
    pairRegWrites ((ALG_REG_FM1_DATA, v) :: rest) (some idx) =
      (idx, v) :: pairRegWrites rest (some idx) := by
  simp [pairRegWrites, ALG_REG_FM1_ADDR, ALG_REG_FM1_DATA]

theorem pairRegWrites_blocks (L : List Nat) :
    ∀ (g : Nat → Nat) (sel : Option Nat),
      pairRegWrites
        (L.flatMap fun i =>
          [(ALG_REG_FM1_ADDR, ALG_BANK_CONTROL), (ALG_REG_FM1_ADDR, i),
           (ALG_REG_FM1_DATA, g i), (ALG_REG_FM1_ADDR, ALG_BANK_OPL3)]) sel =
      L.map fun i => (i, g i) := by
  induction L with
  | nil => intro g sel; simp [pairRegWrites]
  | cons i L ih =>
    intro g sel
    simp only [List.flatMap_cons, List.cons_append, List.nil_append, List.map_cons,
      pairRegWrites_addr, pairRegWrites_data]
    rw [ih]

theorem readbackLoop_spec (n : Nat) :
    ∀ (start : Nat) (st : AdapterState) (bus : BusState),
      (∀ j, (readbackLoop (List.range' start n) (st, bus)).1.controlRegs j =
          if start ≤ j ∧ j < start + n then bus.hw (bus.nReads + (j - start))
          else st.controlRegs j)
      ∧ (readbackLoop (List.range' start n) (st, bus)).2.hw = bus.hw
      ∧ (readbackLoop (List.range' start n) (st, bus)).2.nReads = bus.nReads + n
      ∧ (∃ pre, (readbackLoop (List.range' start n) (st, bus)).2.events = pre ++ bus.events) := by
  induction n with
  | zero =>
    intro start st bus
    exact ⟨fun j => by rw [if_neg (by omega)]; rfl, rfl, rfl, ⟨[], rfl⟩⟩
  | succ n ih =>
    intro start st bus
    have hr : List.range' start (n + 1) = start :: List.range' (start + 1) n := rfl
    have hstep : readbackLoop (start :: List.range' (start + 1) n) (st, bus)
        = readbackLoop (List.range' (start + 1) n)
            ({ st with controlRegs := updReg st.controlRegs start (bus.hw bus.nReads) },
             { bus with nReads := bus.nReads + 1,
                        events := PortEvent.read ALG_REG_FM1_DATA (bus.hw bus.nReads)
                          :: PortEvent.write ALG_REG_FM1_ADDR start :: bus.events }) := rfl
    rw [hr, hstep]
    obtain ⟨hc, hhw, hn, hev⟩ := ih (start + 1)
      { st with controlRegs := updReg st.controlRegs start (bus.hw bus.nReads) }
      { bus with nReads := bus.nReads + 1,
                 events := PortEvent.read ALG_REG_FM1_DATA (bus.hw bus.nReads)
                   :: PortEvent.write ALG_REG_FM1_ADDR start :: bus.events }
    refine ⟨fun j => ?_, hhw,
      by rw [hn]; show bus.nReads + 1 + n = bus.nReads + (n + 1); omega, ?_⟩
    · rw [hc j]
      by_cases h1 : start ≤ j ∧ j < start + (n + 1)
      · rw [if_pos h1]
        by_cases h2 : j = start
        · rw [if_neg (by omega), h2]
          show updReg st.controlRegs start (bus.hw bus.nReads) start =
            bus.hw (bus.nReads + (start - start))
          rw [updReg_same]
          exact congrArg bus.hw (by omega)
        · rw [if_pos (by omega)]
          show bus.hw (bus.nReads + 1 + (j - (start + 1))) = bus.hw (bus.nReads + (j - start))
          exact congrArg bus.hw (by omega)
      · rw [if_neg h1, if_neg (by omega)]
        show updReg st.controlRegs start (bus.hw bus.nReads) j = st.controlRegs j
        exact updReg_other _ _ _ _ (by omega)
    · obtain ⟨pre, hpre⟩ := hev
      exact ⟨pre ++ [PortEvent.read ALG_REG_FM1_DATA (bus.hw bus.nReads),
                     PortEvent.write ALG_REG_FM1_ADDR start],
             by rw [hpre]; simp⟩

theorem eepromPrefixBus_hw (bus : BusState) : (eepromPrefixBus bus).hw = bus.hw := by
  simp [eepromPrefixBus, WaitForReady_hw, stall, writePort]

theorem eepromPrefixBus_mem_stall (bus : BusState) :
    PortEvent.stall 2500 ∈ (eepromPrefixBus bus).events := by
  obtain ⟨pre, hpre⟩ := WaitForReady_events_append (stall 2500
    (writePort ALG_REG_FM1_DATA CTRL_ID_RESTORE
      (writePort ALG_REG_FM1_ADDR CTRL_REG_CONTROL_ID
        (WaitForReady (writePort ALG_REG_FM1_ADDR ALG_BANK_CONTROL bus)).2)))
  rw [eepromPrefixBus, hpre]
  simp [stall, writePort]

theorem eepromPrefixBus_mem_restore (bus : BusState) :
    PortEvent.write ALG_REG_FM1_DATA CTRL_ID_RESTORE ∈ (eepromPrefixBus bus).events := by
  obtain ⟨pre, hpre⟩ := WaitForReady_events_append (stall 2500
    (writePort ALG_REG_FM1_DATA CTRL_ID_RESTORE
      (writePort ALG_REG_FM1_ADDR CTRL_REG_CONTROL_ID
        (WaitForReady (writePort ALG_REG_FM1_ADDR ALG_BANK_CONTROL bus)).2)))
  rw [eepromPrefixBus, hpre]
  simp [stall, writePort]

theorem RestoreFromEEPROM_powered_eq (st : AdapterState) (bus : BusState)
    (hp : ¬ st.powerState > PowerDeviceD1) :
    RestoreFromEEPROM st bus =
      (STATUS_SUCCESS,
       { (readbackLoop (List.range CTRL_REG_MAX) (st, eepromPrefixBus bus)).1 with
           cardModel :=
             (readbackLoop (List.range CTRL_REG_MAX) (st, eepromPrefixBus bus)).1.controlRegs
               CTRL_REG_CONTROL_ID &&& CTRL_ID_MODEL_MASK,
           cardOptions :=
             (readbackLoop (List.range CTRL_REG_MAX) (st, eepromPrefixBus bus)).1.controlRegs
               CTRL_REG_CONTROL_ID },
       writePort ALG_REG_FM1_ADDR ALG_BANK_OPL3
         (readbackLoop (List.range CTRL_REG_MAX) (st, eepromPrefixBus bus)).2) := by
  simp only [RestoreFromEEPROM, eepromPrefixBus]
  rw [if_neg hp]

theorem waitAux_succ (t : Nat) (bus : BusState) :
    waitAux (t + 1) bus =
      let r := readPort ALG_REG_FM1_ADDR bus
      if r.1 &&& ALG_STATUS_BUSY_MASK = 0 then (t + 1, r.2)
      else if t = 0 then (0, r.2) else waitAux t r.2 := rfl

theorem WaitForReady_ready (bus : BusState)
    (h : bus.hw bus.nReads &&& ALG_STATUS_BUSY_MASK = 0) :
    WaitForReady bus = (true, (readPort ALG_REG_FM1_ADDR bus).2) := by
  unfold WaitForReady
  rw [show (1000 : Nat) = 999 + 1 from rfl, waitAux_succ]
  simp only [readPort]
  rw [if_pos h]
  simp

theorem foldl_writes_cardModel (ws : List (Nat × Nat)) :
    ∀ sb : AdapterState × BusState,
      (ws.foldl (fun sb p => ControlRegWrite sb.1 sb.2 p.1 p.2) sb).1.cardModel =
        sb.1.cardModel := by
  induction ws with
  | nil => intro sb; rfl
  | cons p ws ih =>
    intro sb
    rw [List.foldl_cons, ih]
    exact ControlRegWrite_cardModel _ _ _ _

theorem ControlRegReset_cardModel (ws : List (Nat × Nat)) (st : AdapterState)
    (bus : BusState) : (ControlRegReset ws st bus).1.cardModel = st.cardModel := by
  unfold ControlRegReset
  rw [ControlRegWrite_cardModel, foldl_writes_cardModel]

/-! ### Claims -/

/-- C9: with the external interrupt-sync setup succeeding and a responsive
card reporting identity byte `id`, initialization succeeds exactly when the
low four bits of `id` are a recognized model code (0x00, 0x01 or 0x02); the
cached model field always holds those low four bits, and for any other code
`Init` fails with `STATUS_DEVICE_DOES_NOT_EXIST`. -/
theorem C9_identity_probe (id : Nat) (sw : List (Nat × Nat)) (hid : id < 256) :
    ((Init (probeOracle id) STATUS_SUCCESS sw).1 = STATUS_SUCCESS ↔
      (id &&& CTRL_ID_MODEL_MASK = 0 ∨ id &&& CTRL_ID_MODEL_MASK = 1 ∨
       id &&& CTRL_ID_MODEL_MASK = 2)) ∧
    (Init (probeOracle id) STATUS_SUCCESS sw).2.1.cardModel = id &&& CTRL_ID_MODEL_MASK ∧
    (id &&& CTRL_ID_MODEL_MASK > ALG_MODEL_GOLD2000MC →
      (Init (probeOracle id) STATUS_SUCCESS sw).1 = STATUS_DEVICE_DOES_NOT_EXIST) := by
  have hready : WaitForReady (writePort ALG_REG_FM1_ADDR ALG_BANK_CONTROL
      (mkBus (probeOracle id))) =
      (true, (readPort ALG_REG_FM1_ADDR (writePort ALG_REG_FM1_ADDR ALG_BANK_CONTROL
        (mkBus (probeOracle id)))).2) :=
    WaitForReady_ready _ (by simp [writePort, mkBus, probeOracle])
  simp only [Init, hready]
  simp only [readPort, writePort, mkBus, probeOracle]
  norm_num
  have hALG : ALG_MODEL_GOLD2000MC = 2 := rfl
  by_cases hm : id &&& CTRL_ID_MODEL_MASK > ALG_MODEL_GOLD2000MC
  · rw [if_pos hm]
    refine ⟨?_, rfl, fun _ => rfl⟩
    constructor
    · intro h
      simp [STATUS_DEVICE_DOES_NOT_EXIST, STATUS_SUCCESS] at h
    · intro hdisj
      have : id &&& CTRL_ID_MODEL_MASK ≤ ALG_MODEL_GOLD2000MC := by
        rcases hdisj with h | h | h <;> rw [h] <;> decide
      omega
  · rw [if_neg hm]
    refine ⟨?_, ?_, fun h => absurd h hm⟩
    · constructor
      · intro _
        omega
      · intro _; rfl
    · exact ControlRegReset_cardModel sw _ _

theorem C9_identity_probe_witness :
    (0x07 : Nat) < 256 ∧
    (((Init (probeOracle 0x07) STATUS_SUCCESS []).1 = STATUS_SUCCESS ↔
       ((0x07 : Nat) &&& CTRL_ID_MODEL_MASK = 0 ∨ (0x07 : Nat) &&& CTRL_ID_MODEL_MASK = 1 ∨
        (0x07 : Nat) &&& CTRL_ID_MODEL_MASK = 2)) ∧
     (Init (probeOracle 0x07) STATUS_SUCCESS []).2.1.cardModel =
       (0x07 : Nat) &&& CTRL_ID_MODEL_MASK ∧
     ((0x07 : Nat) &&& CTRL_ID_MODEL_MASK > ALG_MODEL_GOLD2000MC →
       (Init (probeOracle 0x07) STATUS_SUCCESS []).1 = STATUS_DEVICE_DOES_NOT_EXIST)) :=
  ⟨by decide, C9_identity_probe 0x07 [] (by decide)⟩

/-- C7: when the power state is operative, `RestoreFromEEPROM` succeeds and,
after the restore command and the fixed 2.5 ms stall (both present in the
trace), re-reads every register index 0x00–0x18 from hardware into the shadow
cache — entry `reg` holds the value the hardware returned for `reg`, the
reads being consecutive — and refreshes the cached card model and option
fields from the re-read identity register; when the power state is below
operative level it returns `STATUS_DEVICE_POWERED_OFF` and leaves the
adapter state and the bus untouched. -/
theorem C7_eeprom_restore (hw : Nat → Nat) (st : AdapterState) :
    (st.powerState ≤ PowerDeviceD1 →
      (RestoreFromEEPROM st (mkBus hw)).1 = STATUS_SUCCESS ∧
      (∃ k, ∀ reg, reg < CTRL_REG_MAX →
        (RestoreFromEEPROM st (mkBus hw)).2.1.controlRegs reg = hw (k + reg)) ∧
      (RestoreFromEEPROM st (mkBus hw)).2.1.cardModel =
        (RestoreFromEEPROM st (mkBus hw)).2.1.controlRegs CTRL_REG_CONTROL_ID &&&
          CTRL_ID_MODEL_MASK ∧
      (RestoreFromEEPROM st (mkBus hw)).2.1.cardOptions =
        (RestoreFromEEPROM st (mkBus hw)).2.1.controlRegs CTRL_REG_CONTROL_ID ∧
      PortEvent.stall 2500 ∈ (RestoreFromEEPROM st (mkBus hw)).2.2.events ∧
      PortEvent.write ALG_REG_FM1_DATA CTRL_ID_RESTORE ∈
        (RestoreFromEEPROM st (mkBus hw)).2.2.events)
    ∧ (¬ st.powerState ≤ PowerDeviceD1 →
      RestoreFromEEPROM st (mkBus hw) = (STATUS_DEVICE_POWERED_OFF, st, mkBus hw)) := by
  constructor
  · intro hp
    have hgate : ¬ st.powerState > PowerDeviceD1 := by omega
    have hrange : List.range CTRL_REG_MAX = List.range' 0 CTRL_REG_MAX :=
      List.range_eq_range' _
    rw [RestoreFromEEPROM_powered_eq st (mkBus hw) hgate, hrange]
    obtain ⟨hc, hhw2, hn2, hev⟩ :=
      readbackLoop_spec CTRL_REG_MAX 0 st (eepromPrefixBus (mkBus hw))
    have hBhw : (eepromPrefixBus (mkBus hw)).hw = hw := eepromPrefixBus_hw (mkBus hw)
    refine ⟨rfl, ⟨(eepromPrefixBus (mkBus hw)).nReads, fun reg hreg => ?_⟩, rfl, rfl, ?_, ?_⟩
    · show (readbackLoop (List.range' 0 CTRL_REG_MAX)
          (st, eepromPrefixBus (mkBus hw))).1.controlRegs reg = _
      rw [hc reg, if_pos ⟨by omega, by omega⟩, hBhw]
      exact congrArg hw (by omega)
    · obtain ⟨pre, hpre⟩ := hev
      show PortEvent.stall 2500 ∈ PortEvent.write ALG_REG_FM1_ADDR ALG_BANK_OPL3 ::
        (readbackLoop (List.range' 0 CTRL_REG_MAX) (st, eepromPrefixBus (mkBus hw))).2.events
      apply List.mem_cons_of_mem
      rw [hpre]
      exact List.mem_append_right _ (eepromPrefixBus_mem_stall (mkBus hw))
    · obtain ⟨pre, hpre⟩ := hev
      show PortEvent.write ALG_REG_FM1_DATA CTRL_ID_RESTORE ∈
        PortEvent.write ALG_REG_FM1_ADDR ALG_BANK_OPL3 ::
        (readbackLoop (List.range' 0 CTRL_REG_MAX) (st, eepromPrefixBus (mkBus hw))).2.events
      apply List.mem_cons_of_mem
      rw [hpre]
      exact List.mem_append_right _ (eepromPrefixBus_mem_restore (mkBus hw))
  · intro hp
    simp only [RestoreFromEEPROM]
    rw [if_pos (by omega)]

theorem C7_eeprom_restore_witness :
    st0.powerState ≤ PowerDeviceD1 ∧
    ((RestoreFromEEPROM st0 (mkBus zeroOracle)).1 = STATUS_SUCCESS ∧
     (∃ k, ∀ reg, reg < CTRL_REG_MAX →
       (RestoreFromEEPROM st0 (mkBus zeroOracle)).2.1.controlRegs reg = zeroOracle (k + reg)) ∧
     (RestoreFromEEPROM st0 (mkBus zeroOracle)).2.1.cardModel =
       (RestoreFromEEPROM st0 (mkBus zeroOracle)).2.1.controlRegs CTRL_REG_CONTROL_ID &&&
         CTRL_ID_MODEL_MASK ∧
     (RestoreFromEEPROM st0 (mkBus zeroOracle)).2.1.cardOptions =
       (RestoreFromEEPROM st0 (mkBus zeroOracle)).2.1.controlRegs CTRL_REG_CONTROL_ID ∧
     PortEvent.stall 2500 ∈ (RestoreFromEEPROM st0 (mkBus zeroOracle)).2.2.events ∧
     PortEvent.write ALG_REG_FM1_DATA CTRL_ID_RESTORE ∈
       (RestoreFromEEPROM st0 (mkBus zeroOracle)).2.2.events) :=
  ⟨by decide, (C7_eeprom_restore zeroOracle st0).1 (by decide)⟩

/-- C4: a power transition to Full (D0) from any other state first sets the
stored power state and then writes exactly the shadow-cache values of mixer
registers 0x04–0x0F to hardware, in ascending index order (real hardware
writes occur because the state has already flipped — the theorem holds even
when the old state was D2 or D3); a transition from Full to any lower state
only records the new state and performs no hardware access at all. -/
theorem C4_power_transitions (hw : Nat → Nat) (st : AdapterState) :
    (st.powerState ≠ PowerDeviceD0 →
      (PowerChangeState st (mkBus hw) PowerDeviceD0).1 =
        { st with powerState := PowerDeviceD0 } ∧
      ctrlRegHwWrites (PowerChangeState st (mkBus hw) PowerDeviceD0).2 =
        mixerRange.map fun i => (i, st.controlRegs i))
    ∧ (∀ NewState, st.powerState = PowerDeviceD0 →
        NewState = PowerDeviceD1 ∨ NewState = PowerDeviceD2 ∨ NewState = PowerDeviceD3 →
        PowerChangeState st (mkBus hw) NewState =
          ({ st with powerState := NewState }, mkBus hw)) := by
  constructor
  · intro hne
    have hcond : PowerDeviceD0 ≠ st.powerState := fun h => hne h.symm
    simp only [PowerChangeState]
    rw [if_pos hcond]
    simp only [if_true]
    obtain ⟨h1, h2⟩ := replayMixer_spec mixerRange { st with powerState := PowerDeviceD0 }
      (mkBus hw) (by simp [PowerDeviceD0, PowerDeviceD1]) (by decide)
    refine ⟨h1, ?_⟩
    rw [ctrlRegHwWrites, h2, show chronWrites (mkBus hw) = [] from rfl, List.nil_append]
    exact pairRegWrites_blocks mixerRange st.controlRegs none
  · intro NewState hst hcases
    have hne : NewState ≠ st.powerState := by
      rcases hcases with h | h | h <;> (subst h; rw [hst]; decide)
    have hnd0 : ¬ (NewState = PowerDeviceD0) := by
      rcases hcases with h | h | h <;> (subst h; decide)
    simp only [PowerChangeState]
    rw [if_pos hne, if_neg hnd0, if_pos hcases]

theorem C4_power_transitions_witness :
    stOff.powerState ≠ PowerDeviceD0 ∧
    ((PowerChangeState stOff (mkBus zeroOracle) PowerDeviceD0).1 =
       { stOff with powerState := PowerDeviceD0 } ∧
     ctrlRegHwWrites (PowerChangeState stOff (mkBus zeroOracle) PowerDeviceD0).2 =
       mixerRange.map fun i => (i, stOff.controlRegs i)) :=
  ⟨by decide, (C4_power_transitions zeroOracle stOff).1 (by decide)⟩

/-- C1: for every register index `i` (0x00–0x18) and every value `v`,
`ControlRegWrite i v` followed by `ControlRegRead i` returns `v`, in every
power state: the shadow cache is updated by the write even when the hardware
access is skipped because the power state is below operative level. -/
theorem C1_write_read_roundtrip (st : AdapterState) (bus : BusState) (i v : Nat)
    (hi : i < CTRL_REG_MAX) :
    ControlRegRead (ControlRegWrite st bus i v).1 i = v :=
  read_after_write st bus i v hi

theorem C1_write_read_roundtrip_witness :
    (0x06 : Nat) < CTRL_REG_MAX ∧
    ControlRegRead (ControlRegWrite stOff (mkBus zeroOracle) 0x06 0xF9).1 0x06 = 0xF9 :=
  ⟨by decide, C1_write_read_roundtrip stOff (mkBus zeroOracle) 0x06 0xF9 (by decide)⟩

/-- C2: after every `ControlRegWrite` call, on every exit path, the shared
port pair is left in `SecondaryBank`: when powered the last value written to
the bank-select port base+2 is the OPL3 sentinel 0xFE, and when power-gated
the call writes no port at all. -/
theorem C2_bank_restored (hw : Nat → Nat) (st : AdapterState) (i v : Nat) :
    (st.powerState ≤ PowerDeviceD1 →
      lastWriteTo ALG_REG_FM1_ADDR (ControlRegWrite st (mkBus hw) i v).2.events =
        some ALG_BANK_OPL3)
    ∧ (¬ st.powerState ≤ PowerDeviceD1 →
      writesOf (ControlRegWrite st (mkBus hw) i v).2.events = []) := by
  constructor
  · intro hp
    rw [lastWriteTo, ControlRegWrite_writesOf_powered st (mkBus hw) i v hp]
    simp [mkBus, List.find?, ALG_REG_FM1_ADDR]
  · intro hp
    rw [ControlRegWrite_snd_unpowered st (mkBus hw) i v hp]
    simp [mkBus, writesOf]

theorem C2_bank_restored_witness :
    st0.powerState ≤ PowerDeviceD1 ∧
    lastWriteTo ALG_REG_FM1_ADDR (ControlRegWrite st0 (mkBus zeroOracle) 0x06 0xF9).2.events =
      some ALG_BANK_OPL3 :=
  ⟨by decide, (C2_bank_restored zeroOracle st0 0x06 0xF9).1 (by decide)⟩

/-- C5 counterexample: `ControlRegWrite(0x12, 1)` leaves 1, not 0, in the
shadow cache at the reserved index, and `ControlRegRead(0x12)` returns 1. -/
theorem C5_counterexample :
    ¬ (ControlRegRead (ControlRegWrite st0 (mkBus zeroOracle) CTRL_REG_RESERVED 1).1
        CTRL_REG_RESERVED = 0) := by
  decide

/-- C5 (amended): `ControlRegWrite` does not enforce the reserved-register
invariant: after `ControlRegWrite(0x12, v)` the cached value is `v` and
`ControlRegRead(0x12)` returns `v`.  The zeroing lives in `ControlRegReset`,
which ends with `ControlRegWrite(0x12, 0)`, so after any reset the cached
value of index 0x12 is 0 and `ControlRegRead(0x12)` returns 0. -/
theorem C5_reserved_register (ws : List (Nat × Nat)) (st : AdapterState)
    (bus : BusState) (v : Nat) :
    ControlRegRead (ControlRegWrite st bus CTRL_REG_RESERVED v).1 CTRL_REG_RESERVED = v
    ∧ ControlRegRead (ControlRegReset ws st bus).1 CTRL_REG_RESERVED = 0 := by
  refine ⟨read_after_write _ _ _ _ (by decide), ?_⟩
  unfold ControlRegReset
  exact read_after_write _ _ _ _ (by decide)

/-- C8: `ControlRegWrite` reports no error for any index and value: the
busy-poll is bounded at 1000 reads, and for every hardware response pattern —
including one that never clears the busy bits — the write still performs the
register-index write, the data write and the bank restore, and still updates
the shadow cache. -/
theorem C8_best_effort (hw : Nat → Nat) (st : AdapterState) (i v : Nat)
    (hp : st.powerState ≤ PowerDeviceD1) (hi : i < CTRL_REG_MAX) :
    (WaitForReady (mkBus hw)).2.nReads ≤ 1000 ∧
    chronWrites (ControlRegWrite st (mkBus hw) i v).2 =
      [(ALG_REG_FM1_ADDR, ALG_BANK_CONTROL), (ALG_REG_FM1_ADDR, i),
       (ALG_REG_FM1_DATA, v), (ALG_REG_FM1_ADDR, ALG_BANK_OPL3)] ∧
    (ControlRegWrite st (mkBus hw) i v).1.controlRegs i = v := by
  refine ⟨?_, ?_, ?_⟩
  · have h := WaitForReady_nReads_le (mkBus hw)
    simpa [mkBus] using h
  · rw [chronWrites, ControlRegWrite_writesOf_powered st (mkBus hw) i v hp]
    simp [mkBus, writesOf]
  · simp [ControlRegWrite_controlRegs, hi]

theorem C8_best_effort_witness :
    st0.powerState ≤ PowerDeviceD1 ∧ (0x10 : Nat) < CTRL_REG_MAX ∧
    ((WaitForReady (mkBus busyOracle)).2.nReads ≤ 1000 ∧
     chronWrites (ControlRegWrite st0 (mkBus busyOracle) 0x10 0x33).2 =
       [(ALG_REG_FM1_ADDR, ALG_BANK_CONTROL), (ALG_REG_FM1_ADDR, 0x10),
        (ALG_REG_FM1_DATA, 0x33), (ALG_REG_FM1_ADDR, ALG_BANK_OPL3)] ∧
     (ControlRegWrite st0 (mkBus busyOracle) 0x10 0x33).1.controlRegs 0x10 = 0x33) :=
  ⟨by decide, by decide, C8_best_effort busyOracle st0 0x10 0x33 (by decide) (by decide)⟩

/-- C10: every shadow-cache access is in bounds: for every index at or above
`CTRL_REG_MAX`, `ControlRegWrite` leaves the adapter state (hence every cache
entry) unchanged while still performing the hardware sequence when powered,
and `ControlRegRead` returns 0. -/
theorem C10_out_of_range (hw : Nat → Nat) (st : AdapterState) (i v : Nat)
    (hi : CTRL_REG_MAX ≤ i) :
    (ControlRegWrite st (mkBus hw) i v).1 = st ∧
    ControlRegRead st i = 0 ∧
    (st.powerState ≤ PowerDeviceD1 →
      chronWrites (ControlRegWrite st (mkBus hw) i v).2 =
        [(ALG_REG_FM1_ADDR, ALG_BANK_CONTROL), (ALG_REG_FM1_ADDR, i),
         (ALG_REG_FM1_DATA, v), (ALG_REG_FM1_ADDR, ALG_BANK_OPL3)]) := by
  refine ⟨?_, ?_, ?_⟩
  · rw [ControlRegWrite_fst, if_neg (by omega)]
  · rw [ControlRegRead, if_neg (by omega)]
  · intro hp
    rw [chronWrites, ControlRegWrite_writesOf_powered st (mkBus hw) i v hp]
    simp [mkBus, writesOf]

/-- A status byte with the sampling bit clear (asserted, active low) cannot
have all four IRQ-source bits set. -/
theorem smp_not_all_ones (s : Nat) (hsmp : s &&& ALG_STATUS_SMP_IRQ = 0) :
    ¬ (s &&& ALG_STATUS_IRQ_MASK = ALG_STATUS_IRQ_MASK) := by
  intro hall
  have h2 : s &&& ALG_STATUS_IRQ_MASK &&& ALG_STATUS_SMP_IRQ =
      ALG_STATUS_IRQ_MASK &&& ALG_STATUS_SMP_IRQ := by rw [hall]
  rw [Nat.and_assoc,
      show (ALG_STATUS_IRQ_MASK &&& ALG_STATUS_SMP_IRQ : Nat) = ALG_STATUS_SMP_IRQ from rfl,
      hsmp] at h2
  exact absurd h2.symm (by decide)

/-- C3: on a dispatch whose status byte has the sampling bit asserted (D1 = 0),
the interrupt service routine reads the MMA status register exactly once,
invokes the wave consumer exactly once if registered — regardless of the MMA
status contents — and invokes the MIDI consumer exactly once iff the RRQ flag
is set in that single status read and a MIDI consumer is registered. -/
theorem C3_sampling_dispatch (hw : Nat → Nat) (st : AdapterState)
    (hsmp : hw 0 &&& ALG_STATUS_SMP_IRQ = 0) :
    countReadsTo ALG_REG_MMA0_ADDR (InterruptServiceRoutine st (mkBus hw)).2.events = 1 ∧
    countWaveCalls (InterruptServiceRoutine st (mkBus hw)).2.events =
      (if st.waveMiniport then 1 else 0) ∧
    countMidiCalls (InterruptServiceRoutine st (mkBus hw)).2.events =
      (if hw 1 &&& MMA_STATUS_RRQ ≠ 0 ∧ st.midiMiniport then 1 else 0) := by
  have hne := smp_not_all_ones (hw 0) hsmp
  simp only [InterruptServiceRoutine, mkBus, writePort, readPort, callWave, callMidi]
  rw [if_neg hne, if_pos hsmp]
  split_ifs <;>
    simp_all [countReadsTo, countWaveCalls, countMidiCalls, ALG_REG_MMA0_ADDR,
      ALG_REG_FM0_ADDR, ALG_REG_FM1_ADDR]

theorem C3_sampling_dispatch_witness :
    zeroOracle 0 &&& ALG_STATUS_SMP_IRQ = 0 ∧
    (countReadsTo ALG_REG_MMA0_ADDR
        (InterruptServiceRoutine stBoth (mkBus zeroOracle)).2.events = 1 ∧
     countWaveCalls (InterruptServiceRoutine stBoth (mkBus zeroOracle)).2.events =
       (if stBoth.waveMiniport then 1 else 0) ∧
     countMidiCalls (InterruptServiceRoutine stBoth (mkBus zeroOracle)).2.events =
       (if zeroOracle 1 &&& MMA_STATUS_RRQ ≠ 0 ∧ stBoth.midiMiniport then 1 else 0)) :=
  ⟨by decide, C3_sampling_dispatch zeroOracle stBoth (by decide)⟩

/-- C6: on a dispatch whose status byte has all four active-low IRQ-source
bits set to 1 (all sources inactive), the interrupt service routine returns
the not-mine status `STATUS_UNSUCCESSFUL`, invokes no consumer callback, and
performs no acknowledging read of the MMA or FM status registers. -/
theorem C6_not_mine (hw : Nat → Nat) (st : AdapterState)
    (h : hw 0 &&& ALG_STATUS_IRQ_MASK = ALG_STATUS_IRQ_MASK) :
    (InterruptServiceRoutine st (mkBus hw)).1 = STATUS_UNSUCCESSFUL ∧
    countWaveCalls (InterruptServiceRoutine st (mkBus hw)).2.events = 0 ∧
    countMidiCalls (InterruptServiceRoutine st (mkBus hw)).2.events = 0 ∧
    countReadsTo ALG_REG_MMA0_ADDR (InterruptServiceRoutine st (mkBus hw)).2.events = 0 ∧
    countReadsTo ALG_REG_FM0_ADDR (InterruptServiceRoutine st (mkBus hw)).2.events = 0 := by
  simp only [InterruptServiceRoutine, mkBus, writePort, readPort]
  rw [if_pos h]
  simp [countReadsTo, countWaveCalls, countMidiCalls, ALG_REG_MMA0_ADDR,
    ALG_REG_FM0_ADDR, ALG_REG_FM1_ADDR]

theorem C6_not_mine_witness :
    idleOracle 0 &&& ALG_STATUS_IRQ_MASK = ALG_STATUS_IRQ_MASK ∧
    ((InterruptServiceRoutine stBoth (mkBus idleOracle)).1 = STATUS_UNSUCCESSFUL ∧
     countWaveCalls (InterruptServiceRoutine stBoth (mkBus idleOracle)).2.events = 0 ∧
     countMidiCalls (InterruptServiceRoutine stBoth (mkBus idleOracle)).2.events = 0 ∧
     countReadsTo ALG_REG_MMA0_ADDR
       (InterruptServiceRoutine stBoth (mkBus idleOracle)).2.events = 0 ∧
     countReadsTo ALG_REG_FM0_ADDR
       (InterruptServiceRoutine stBoth (mkBus idleOracle)).2.events = 0) :=
  ⟨by decide, C6_not_mine idleOracle stBoth (by decide)⟩

theorem C10_out_of_range_witness :
    CTRL_REG_MAX ≤ (0x20 : Nat) ∧
    ((ControlRegWrite st0 (mkBus zeroOracle) 0x20 7).1 = st0 ∧
     ControlRegRead st0 0x20 = 0 ∧
     (st0.powerState ≤ PowerDeviceD1 →
       chronWrites (ControlRegWrite st0 (mkBus zeroOracle) 0x20 7).2 =
         [(ALG_REG_FM1_ADDR, ALG_BANK_CONTROL), (ALG_REG_FM1_ADDR, 0x20),
          (ALG_REG_FM1_DATA, 7), (ALG_REG_FM1_ADDR, ALG_BANK_OPL3)])) :=
  ⟨by decide, C10_out_of_range zeroOracle st0 0x20 7 (by decide)⟩

end AdLibGold
